import Mathlib

/-!
Shallow embedding of `youtu.go`, a Go client for the Tencent YouTu face
API, together with proofs of the specification claims about it.

Modelling conventions:
* Go `[]byte` is `List Nat` (each entry a byte value `< 256`).
* Go `uint32` / `int32` / `int64` fields are `Nat` (all values the claims
  touch are non-negative); arithmetic that can wrap is reduced `% 2^32`
  explicitly in the SHA-1 core.
* Go strings are Lean `String`; `[]byte(s)` is the UTF-8 encoding
  `utf8Bytes s`, so `len(s)` is `(utf8Bytes s).length`.
* Effects are injected: wall-clock time `t` and the random nonce `r` are
  explicit arguments of the signer; HTTP transport, JSON marshalling and
  unmarshalling, and file reads are oracle function parameters.  A Go
  function with an out-pointer result and an `error` result becomes a
  function returning `value × Option String`; a pointer-receiver method
  additionally returns the (unmodified, since the source never assigns to
  the receiver) receiver state.
-/

set_option maxRecDepth 100000

/-- Reduce to a 32-bit word, as Go `uint32` arithmetic does implicitly. -/
def w32 (n : Nat) : Nat := n % 4294967296

/-- 32-bit left rotation. -/
def rotl32 (n k : Nat) : Nat := w32 (n <<< k) ||| (n >>> (32 - k))

/-- UTF-8 encoding of one character (Go's `[]byte(string)` byte layout). -/
def utf8EncodeChar (c : Char) : List Nat :=
  let n := c.toNat
  if n < 128 then [n]
  else if n < 2048 then [192 ||| (n >>> 6), 128 ||| (n &&& 63)]
  else if n < 65536 then
    [224 ||| (n >>> 12), 128 ||| ((n >>> 6) &&& 63), 128 ||| (n &&& 63)]
  else
    [240 ||| (n >>> 18), 128 ||| ((n >>> 12) &&& 63),
     128 ||| ((n >>> 6) &&& 63), 128 ||| (n &&& 63)]

/-- The bytes of a Go string: UTF-8 encoding, as in `[]byte(s)`. -/
def utf8Bytes (s : String) : List Nat := s.data.flatMap utf8EncodeChar

/-- Big-endian 8-byte encoding of a length in bits (SHA-1 padding tail). -/
def be64 (n : Nat) : List Nat :=
  [(n >>> 56) &&& 255, (n >>> 48) &&& 255, (n >>> 40) &&& 255,
   (n >>> 32) &&& 255, (n >>> 24) &&& 255, (n >>> 16) &&& 255,
   (n >>> 8) &&& 255, n &&& 255]

/-- SHA-1 message padding: `0x80`, zeros to 56 mod 64, 64-bit bit length. -/
def sha1Pad (msg : List Nat) : List Nat :=
  let zeros := (119 - msg.length % 64) % 64
  msg ++ [128] ++ List.replicate zeros 0 ++ be64 (8 * msg.length)

/-- Group bytes four at a time into big-endian 32-bit words. -/
def toWordsBE : List Nat → List Nat
  | b0 :: b1 :: b2 :: b3 :: rest =>
      (b0 * 16777216 + b1 * 65536 + b2 * 256 + b3) :: toWordsBE rest
  | _ => []

/-- Split a byte list into 64-byte chunks (`fuel` bounds the recursion). -/
def chunks64Aux : Nat → List Nat → List (List Nat)
  | 0, _ => []
  | _ + 1, [] => []
  | fuel + 1, bs@(_ :: _) => bs.take 64 :: chunks64Aux fuel (bs.drop 64)

/-- Split a byte list into 64-byte chunks. -/
def chunks64 (bs : List Nat) : List (List Nat) := chunks64Aux bs.length bs

/-- Extend the 16 schedule words to 80; `acc` holds the words reversed. -/
def sha1ExtendAux : Nat → List Nat → List Nat
  | 0, acc => acc
  | k + 1, acc =>
      let wi := rotl32 ((acc.getD 2 0) ^^^ (acc.getD 7 0) ^^^
                        (acc.getD 13 0) ^^^ (acc.getD 15 0)) 1
      sha1ExtendAux k (wi :: acc)

/-- The 80-word SHA-1 message schedule of one 16-word block. -/
def sha1Schedule (block : List Nat) : List Nat :=
  (sha1ExtendAux 64 block.reverse).reverse

/-- SHA-1 round constant for round `i`. -/
def sha1K (i : Nat) : Nat :=
  if i < 20 then 1518500249
  else if i < 40 then 1859775393
  else if i < 60 then 2400959708
  else 3395469782

/-- SHA-1 round function for round `i`. -/
def sha1F (i b c d : Nat) : Nat :=
  if i < 20 then (b &&& c) ||| ((b ^^^ 4294967295) &&& d)
  else if i < 40 then b ^^^ c ^^^ d
  else if i < 60 then (b &&& c) ||| (b &&& d) ||| (c &&& d)
  else b ^^^ c ^^^ d

/-- Run the 80 SHA-1 rounds over the indexed schedule words. -/
def sha1Rounds : List (Nat × Nat) → Nat × Nat × Nat × Nat × Nat →
    Nat × Nat × Nat × Nat × Nat
  | [], st => st
  | (i, wi) :: rest, (a, b, c, d, e) =>
      let temp := w32 (rotl32 a 5 + sha1F i b c d + e + sha1K i + wi)
      sha1Rounds rest (temp, a, rotl32 b 30, c, d)

/-- Compress one 64-byte block into the running SHA-1 state. -/
def sha1Compress (st : Nat × Nat × Nat × Nat × Nat) (block : List Nat) :
    Nat × Nat × Nat × Nat × Nat :=
  let (h0, h1, h2, h3, h4) := st
  let ws := sha1Schedule (toWordsBE block)
  let idx := (List.range 80).zip ws
  let (a, b, c, d, e) := sha1Rounds idx (h0, h1, h2, h3, h4)
  (w32 (h0 + a), w32 (h1 + b), w32 (h2 + c), w32 (h3 + d), w32 (h4 + e))

/-- Big-endian 4-byte encoding of one 32-bit word. -/
def wordBytesBE (n : Nat) : List Nat :=
  [(n >>> 24) &&& 255, (n >>> 16) &&& 255, (n >>> 8) &&& 255, n &&& 255]

/-- SHA-1 of a byte list, as Go's `crypto/sha1`. -/
def sha1 (msg : List Nat) : List Nat :=
  let init : Nat × Nat × Nat × Nat × Nat :=
    (1732584193, 4023233417, 2562383102, 271733878, 3285377520)
  let (h0, h1, h2, h3, h4) := (chunks64 (sha1Pad msg)).foldl sha1Compress init
  wordBytesBE h0 ++ wordBytesBE h1 ++ wordBytesBE h2 ++
    wordBytesBE h3 ++ wordBytesBE h4

/-- HMAC-SHA1, as Go's `crypto/hmac` with `sha1.New`. -/
def hmacSha1 (key msg : List Nat) : List Nat :=
  let k0 := if key.length > 64 then sha1 key else key
  let k := k0 ++ List.replicate (64 - k0.length) 0
  let ipad := k.map (fun b => b ^^^ 54)
  let opad := k.map (fun b => b ^^^ 92)
  sha1 (opad ++ sha1 (ipad ++ msg))

/-- The standard Base64 alphabet, as Go's `encoding/base64.StdEncoding`. -/
def b64Alphabet : List Char :=
  "ABCDEFGHIJKLMNOPQRSTUVWXYZabcdefghijklmnopqrstuvwxyz0123456789+/".data

/-- Character of the standard Base64 alphabet at index `n`. -/
def b64At (n : Nat) : Char := b64Alphabet.getD n 'A'

/-- Standard Base64: 3 bytes to 4 chars, with `=` padding at the tail. -/
def base64Aux : Nat → List Nat → List Char
  | _, [] => []
  | _, [b0] =>
      [b64At (b0 >>> 2), b64At ((b0 &&& 3) <<< 4), '=', '=']
  | _, [b0, b1] =>
      [b64At (b0 >>> 2), b64At (((b0 &&& 3) <<< 4) ||| (b1 >>> 4)),
       b64At ((b1 &&& 15) <<< 2), '=']
  | 0, _ => []
  | fuel + 1, b0 :: b1 :: b2 :: rest =>
      b64At (b0 >>> 2) :: b64At (((b0 &&& 3) <<< 4) ||| (b1 >>> 4)) ::
      b64At (((b1 &&& 15) <<< 2) ||| (b2 >>> 6)) :: b64At (b2 &&& 63) ::
      base64Aux fuel rest

/-- Standard Base64 encoding of a byte list. -/
def base64Encode (bs : List Nat) : String :=
  String.mk (base64Aux bs.length bs)

/-- Grounding check: Base64 of `hello` matches the published vector. -/
theorem base64Encode_hello : base64Encode [104, 101, 108, 108, 111] = "aGVsbG8=" := by
  decide

/-- Grounding check: SHA-1 of the empty message matches the published
vector `da39a3ee5e6b4b0d3255bfef95601890afd80709`. -/
theorem sha1_empty_vector : sha1 [] =
    [218, 57, 163, 238, 94, 107, 75, 13, 50, 85, 191, 239, 149,
     96, 24, 144, 175, 216, 7, 9] := by decide

/-! ## Data model: credentials and the client (`AppSign`, `Youtu`) -/

/-- `UserIDMaxLen`: the maximal user-id length accepted at construction. -/
def UserIDMaxLen : Nat := 110

/-- The message of the `ErrUserIDTooLong` error value. -/
def ErrUserIDTooLong : String := "user id too long"

/-- `AppSign`: the credential (appID, secretID, secretKey, expired,
userID), immutable after construction. -/
structure AppSign where
  appID : Nat
  secretID : String
  secretKey : String
  expired : Nat
  userID : String
deriving Repr, DecidableEq

/-- `NewAppSign`: build a credential, rejecting user ids longer than
`UserIDMaxLen` bytes (Go `len` on a string counts bytes). -/
def NewAppSign (appID : Nat) (secretID : String) (secretKey : String)
    (expired : Nat) (userID : String) : Except String AppSign :=
  if (utf8Bytes userID).length > UserIDMaxLen then
    .error ErrUserIDTooLong
  else
    .ok ⟨appID, secretID, secretKey, expired, userID⟩

/-- `Youtu`: a credential paired with the target host. -/
structure Youtu where
  appSign : AppSign
  host : String
deriving Repr, DecidableEq

/-- `Youtu.appID`: the application id rendered as its decimal string
(`strconv.Itoa(int(y.appSign.appID))`). -/
def Youtu.appID (y : Youtu) : String := toString y.appSign.appID

/-- `Init`: construct a client from a credential and a host. -/
def Init (appSign : AppSign) (host : String) : Youtu := ⟨appSign, host⟩

/-! ## Signer -/

/-- `Youtu.orignalSign`: the canonical signature string
`a=%d&k=%s&e=%d&t=%d&r=%d&u=%s&f=`.  The wall-clock second `t`
(`time.Now().Unix()`) and the nonce `r` (`rand.Int31()` after
`rand.Seed(t)`) are effects of the source, injected here as arguments. -/
def Youtu.orignalSign (y : Youtu) (t r : Nat) : String :=
  "a=" ++ toString y.appSign.appID ++
  "&k=" ++ y.appSign.secretID ++
  "&e=" ++ toString y.appSign.expired ++
  "&t=" ++ toString t ++
  "&r=" ++ toString r ++
  "&u=" ++ y.appSign.userID ++ "&f="

/-- `Youtu.sign`: HMAC-SHA1 the canonical string with the secret key,
append the canonical string bytes after the digest (the source's
`[]byte(string(hm) + origSign)` is byte concatenation), then standard
Base64. -/
def Youtu.sign (y : Youtu) (t r : Nat) : String :=
  let origSign := y.orignalSign t r
  let hm := hmacSha1 (utf8Bytes y.appSign.secretKey) (utf8Bytes origSign)
  let dstSign := hm ++ utf8Bytes origSign
  base64Encode dstSign

/-! ## Dispatcher -/

/-- `Youtu.interfaceURL`: the target URL
`fmt.Sprintf("http://%s/youtu/api/%s", y.host, ifname)`. -/
def Youtu.interfaceURL (y : Youtu) (ifname : String) : String :=
  "http://" ++ y.host ++ "/youtu/api/" ++ ifname

/-- `Youtu.interfaceRequest`: serialize the request, POST it, decode the
body into `rsp`.  The effectful collaborators are injected:
`marshal` (`json.Marshal`), `get` (`y.get`, taking the URL and the
serialized body, returning the response body or a network error), and
`unmarshal` (`json.Unmarshal` writing through the out-pointer: it takes
the body and the current pointee and returns the updated pointee and an
optional error); `fmtRsp` renders the pointee as `fmt`'s `%s` does.
The result pairs the final pointee with the returned error, mirroring
the Go out-pointer plus `error` signature; on marshal or transport
failure the pointee is untouched. -/
def Youtu.interfaceRequest {Req Rsp : Type}
    (marshal : Req → Except String String)
    (get : String → String → Except String String)
    (unmarshal : String → Rsp → Rsp × Option String)
    (fmtRsp : Rsp → String)
    (y : Youtu) (ifname : String) (req : Req) (rsp0 : Rsp) :
    Rsp × Option String :=
  let url := y.interfaceURL ifname
  match marshal req with
  | .error e => (rsp0, some e)
  | .ok data =>
    match get url data with
    | .error e => (rsp0, some e)
    | .ok body =>
      match unmarshal body rsp0 with
      | (rsp1, some e) =>
        (rsp1, some ("json.Unmarshal() rsp: " ++ fmtRsp rsp1 ++
                     " failed: " ++ e ++ "\n"))
      | (rsp1, none) => (rsp1, none)

/-- `EncodeImage`: read a local file and standard-Base64 its bytes; the
file system is injected as the `readFile` oracle (`ioutil.ReadFile`).
On a read error the empty string and the error are returned. -/
def EncodeImage (readFile : String → Except String (List Nat))
    (file : String) : String × Option String :=
  match readFile file with
  | .error e => ("", some e)
  | .ok buf => (base64Encode buf, none)

/-! ## Typed operation surface

Request and response shapes, transcribed field for field from the source.
Go `float32` payload fields never participate in any claim; they are
represented by their raw bit pattern so that the shapes stay decidable
(the zero value is bit pattern `0`, matching Go's `float32` zero). -/

/-- A `float32` field, carried as its bit pattern. -/
structure Float32 where
  bits : Nat
deriving Repr, DecidableEq, Inhabited

/-- `DetectMode`: Go `type DetectMode int`. -/
abbrev DetectMode := Int

/-- `DetectModeNormal = iota` (0). -/
def DetectModeNormal : DetectMode := 0

/-- `DetectModeBigFace` (1). -/
def DetectModeBigFace : DetectMode := 1

/-- `detectFaceReq`. -/
structure detectFaceReq where
  AppID : String
  Image : String
  Mode : DetectMode
deriving Repr, DecidableEq

/-- `Face`. -/
structure Face where
  FaceID : String
  X : Int
  Y : Int
  Width : Float32
  Height : Float32
  Gender : Int
  Age : Int
  Expression : Int
  Glass : Bool
  Pitch : Int
  Yaw : Int
  Roll : Int
deriving Repr, DecidableEq, Inhabited

/-- `DetectFaceRsp`. -/
structure DetectFaceRsp where
  SessionID : String
  ImageID : String
  ImageWidth : Int
  ImageHeight : Int
  Face : List Face
  ErrorCode : Int
  ErrorMsg : String
deriving Repr, DecidableEq, Inhabited

/-- `Youtu.DetectFace`. -/
def Youtu.DetectFace
    (marshal : detectFaceReq → Except String String)
    (get : String → String → Except String String)
    (unmarshal : String → DetectFaceRsp → DetectFaceRsp × Option String)
    (fmtRsp : DetectFaceRsp → String)
    (y : Youtu) (imageData : String) (mode : DetectMode) :
    (DetectFaceRsp × Option String) × Youtu :=
  (Youtu.interfaceRequest marshal get unmarshal fmtRsp y "detectface"
    ⟨toString y.appSign.appID, imageData, mode⟩ default, y)

/-- `faceCompareReq`. -/
structure faceCompareReq where
  AppID : String
  ImageA : String
  ImageB : String
deriving Repr, DecidableEq

/-- `FaceCompareRsp`. -/
structure FaceCompareRsp where
  EyebrowSim : Float32
  EyeSim : Float32
  NoseSim : Float32
  MouthSim : Float32
  Similarity : Float32
  ErrorCode : Int
  ErrorMsg : String
deriving Repr, DecidableEq, Inhabited

/-- `Youtu.FaceCompare`. -/
def Youtu.FaceCompare
    (marshal : faceCompareReq → Except String String)
    (get : String → String → Except String String)
    (unmarshal : String → FaceCompareRsp → FaceCompareRsp × Option String)
    (fmtRsp : FaceCompareRsp → String)
    (y : Youtu) (imageA imageB : String) :
    (FaceCompareRsp × Option String) × Youtu :=
  (Youtu.interfaceRequest marshal get unmarshal fmtRsp y "facecompare"
    ⟨y.appID, imageA, imageB⟩ default, y)

/-- `faceVerifyReq`. -/
structure faceVerifyReq where
  AppID : String
  Image : String
  PersonID : String
deriving Repr, DecidableEq

/-- `FaceVerifyRsp`. -/
structure FaceVerifyRsp where
  Ismatch : Bool
  Confidence : Float32
  SessionID : String
  ErrorCode : Int
  ErrorMsg : String
deriving Repr, DecidableEq, Inhabited

/-- `Youtu.FaceVerify`. -/
def Youtu.FaceVerify
    (marshal : faceVerifyReq → Except String String)
    (get : String → String → Except String String)
    (unmarshal : String → FaceVerifyRsp → FaceVerifyRsp × Option String)
    (fmtRsp : FaceVerifyRsp → String)
    (y : Youtu) (image personID : String) :
    (FaceVerifyRsp × Option String) × Youtu :=
  (Youtu.interfaceRequest marshal get unmarshal fmtRsp y "faceverify"
    ⟨y.appID, image, personID⟩ default, y)

/-- `faceIdentifyReq`. -/
structure faceIdentifyReq where
  AppID : String
  GroupID : String
  Image : String
deriving Repr, DecidableEq

/-- `FaceIdentifyRsp`. -/
structure FaceIdentifyRsp where
  SessionID : String
  PersonID : String
  FaceID : String
  Confidence : Float32
  ErrorCode : Int
  ErrorMsg : String
deriving Repr, DecidableEq, Inhabited

/-- `Youtu.FaceIdentify`. -/
def Youtu.FaceIdentify
    (marshal : faceIdentifyReq → Except String String)
    (get : String → String → Except String String)
    (unmarshal : String → FaceIdentifyRsp → FaceIdentifyRsp × Option String)
    (fmtRsp : FaceIdentifyRsp → String)
    (y : Youtu) (image groupID : String) :
    (FaceIdentifyRsp × Option String) × Youtu :=
  (Youtu.interfaceRequest marshal get unmarshal fmtRsp y "faceidentify"
    ⟨y.appID, groupID, image⟩ default, y)

/-- `newPersonReq`. -/
structure newPersonReq where
  AppID : String
  Image : String
  PersonID : String
  GroupIDs : List String
  PersonName : String
  Tag : String
deriving Repr, DecidableEq

/-- `NewPersonRsp`. -/
structure NewPersonRsp where
  SessionID : String
  SucGroup : Int
  SucFace : Int
  PersonName : String
  PersonID : String
  FaceID : String
  ErrorCode : Int
  ErrorMsg : String
deriving Repr, DecidableEq, Inhabited

/-- `Youtu.NewPerson`. -/
def Youtu.NewPerson
    (marshal : newPersonReq → Except String String)
    (get : String → String → Except String String)
    (unmarshal : String → NewPersonRsp → NewPersonRsp × Option String)
    (fmtRsp : NewPersonRsp → String)
    (y : Youtu) (image personID : String) (groupIDs : List String)
    (personName tag : String) :
    (NewPersonRsp × Option String) × Youtu :=
  (Youtu.interfaceRequest marshal get unmarshal fmtRsp y "newperson"
    ⟨y.appID, image, personID, groupIDs, personName, tag⟩ default, y)

/-- `delPersonReq`. -/
structure delPersonReq where
  AppID : String
  PersonID : String
deriving Repr, DecidableEq

/-- `DelPersonRsp`. -/
structure DelPersonRsp where
  SessionID : String
  Deleted : Int
  ErrorCode : Int
  ErrorMsg : String
deriving Repr, DecidableEq, Inhabited

/-- `Youtu.DelPerson`. -/
def Youtu.DelPerson
    (marshal : delPersonReq → Except String String)
    (get : String → String → Except String String)
    (unmarshal : String → DelPersonRsp → DelPersonRsp × Option String)
    (fmtRsp : DelPersonRsp → String)
    (y : Youtu) (personID : String) :
    (DelPersonRsp × Option String) × Youtu :=
  (Youtu.interfaceRequest marshal get unmarshal fmtRsp y "delperson"
    ⟨y.appID, personID⟩ default, y)

/-- `addFaceReq`. -/
structure addFaceReq where
  AppID : String
  PersonID : String
  Images : List String
  Tag : String
deriving Repr, DecidableEq

/-- `AddFaceRsp`. -/
structure AddFaceRsp where
  SessionID : String
  Added : Int
  FaceIDs : List String
  ErrorCode : Int
  ErrorMsg : String
deriving Repr, DecidableEq, Inhabited

/-- `Youtu.AddFace`. -/
def Youtu.AddFace
    (marshal : addFaceReq → Except String String)
    (get : String → String → Except String String)
    (unmarshal : String → AddFaceRsp → AddFaceRsp × Option String)
    (fmtRsp : AddFaceRsp → String)
    (y : Youtu) (images : List String) (personID tag : String) :
    (AddFaceRsp × Option String) × Youtu :=
  (Youtu.interfaceRequest marshal get unmarshal fmtRsp y "addface"
    ⟨y.appID, personID, images, tag⟩ default, y)

/-- `delFaceReq`. -/
structure delFaceReq where
  AppID : String
  PersonID : String
  FaceIDs : List String
deriving Repr, DecidableEq

/-- `DelFaceRsp`. -/
structure DelFaceRsp where
  SessonID : String
  Deleted : Int
  ErrorCode : Int
  ErrorMsg : String
deriving Repr, DecidableEq, Inhabited

/-- `Youtu.DelFace`. -/
def Youtu.DelFace
    (marshal : delFaceReq → Except String String)
    (get : String → String → Except String String)
    (unmarshal : String → DelFaceRsp → DelFaceRsp × Option String)
    (fmtRsp : DelFaceRsp → String)
    (y : Youtu) (personID : String) (faceIDs : List String) :
    (DelFaceRsp × Option String) × Youtu :=
  (Youtu.interfaceRequest marshal get unmarshal fmtRsp y "delface"
    ⟨y.appID, personID, faceIDs⟩ default, y)

/-- `setInfoReq`. -/
structure setInfoReq where
  AppID : String
  PersonID : String
  PersonName : String
  Tag : String
deriving Repr, DecidableEq

/-- `SetInfoRsp`: all four fields are unexported in the source (their
names start with a lower-case letter). -/
structure SetInfoRsp where
  sessionID : String
  personID : String
  errorcode : Int
  errormsg : String
deriving Repr, DecidableEq, Inhabited

/-- `Youtu.SetInfo`. -/
def Youtu.SetInfo
    (marshal : setInfoReq → Except String String)
    (get : String → String → Except String String)
    (unmarshal : String → SetInfoRsp → SetInfoRsp × Option String)
    (fmtRsp : SetInfoRsp → String)
    (y : Youtu) (personID personName tag : String) :
    (SetInfoRsp × Option String) × Youtu :=
  (Youtu.interfaceRequest marshal get unmarshal fmtRsp y "setinfo"
    ⟨y.appID, personID, personName, tag⟩ default, y)

/-- `getInfoReq`. -/
structure getInfoReq where
  AppID : String
  PersonID : String
deriving Repr, DecidableEq

/-- `GetInfoRsp`. -/
structure GetInfoRsp where
  PersonName : String
  PersonID : String
  GroupIDs : List String
  FaceIDs : List String
  SessionID : String
  ErrorCode : Int
  ErrorMsg : String
deriving Repr, DecidableEq, Inhabited

/-- `Youtu.GetInfo`. -/
def Youtu.GetInfo
    (marshal : getInfoReq → Except String String)
    (get : String → String → Except String String)
    (unmarshal : String → GetInfoRsp → GetInfoRsp × Option String)
    (fmtRsp : GetInfoRsp → String)
    (y : Youtu) (personID : String) :
    (GetInfoRsp × Option String) × Youtu :=
  (Youtu.interfaceRequest marshal get unmarshal fmtRsp y "getinfo"
    ⟨y.appID, personID⟩ default, y)

/-- `getGroupIDsReq`. -/
structure getGroupIDsReq where
  AppID : String
deriving Repr, DecidableEq

/-- `GetGroupIDsRsp`. -/
structure GetGroupIDsRsp where
  GroupIDs : List String
  ErrorCode : Int
  ErrorMsg : String
deriving Repr, DecidableEq, Inhabited

/-- `Youtu.GetGroupIDs`. -/
def Youtu.GetGroupIDs
    (marshal : getGroupIDsReq → Except String String)
    (get : String → String → Except String String)
    (unmarshal : String → GetGroupIDsRsp → GetGroupIDsRsp × Option String)
    (fmtRsp : GetGroupIDsRsp → String)
    (y : Youtu) :
    (GetGroupIDsRsp × Option String) × Youtu :=
  (Youtu.interfaceRequest marshal get unmarshal fmtRsp y "getgroupids"
    ⟨y.appID⟩ default, y)

/-- `getPersonIDsReq`. -/
structure getPersonIDsReq where
  AppID : String
  GroupID : String
deriving Repr, DecidableEq

/-- `GetPersonIDsRsp`. -/
structure GetPersonIDsRsp where
  PersonIDs : List String
  ErrorCode : Int
  ErrorMsg : String
deriving Repr, DecidableEq, Inhabited

/-- `Youtu.GetPersonIDs`. -/
def Youtu.GetPersonIDs
    (marshal : getPersonIDsReq → Except String String)
    (get : String → String → Except String String)
    (unmarshal : String → GetPersonIDsRsp → GetPersonIDsRsp × Option String)
    (fmtRsp : GetPersonIDsRsp → String)
    (y : Youtu) (groupID : String) :
    (GetPersonIDsRsp × Option String) × Youtu :=
  (Youtu.interfaceRequest marshal get unmarshal fmtRsp y "getpersonids"
    ⟨y.appID, groupID⟩ default, y)

/-- `getFaceIDsReq`. -/
structure getFaceIDsReq where
  AppID : String
  PersonID : String
deriving Repr, DecidableEq

/-- `GetFaceIDsRsp`. -/
structure GetFaceIDsRsp where
  FaceIDs : List String
  ErrorCode : Int
  ErrorMsg : String
deriving Repr, DecidableEq, Inhabited

/-- `Youtu.GetFaceIDs`. -/
def Youtu.GetFaceIDs
    (marshal : getFaceIDsReq → Except String String)
    (get : String → String → Except String String)
    (unmarshal : String → GetFaceIDsRsp → GetFaceIDsRsp × Option String)
    (fmtRsp : GetFaceIDsRsp → String)
    (y : Youtu) (personID : String) :
    (GetFaceIDsRsp × Option String) × Youtu :=
  (Youtu.interfaceRequest marshal get unmarshal fmtRsp y "getfaceids"
    ⟨y.appID, personID⟩ default, y)

/-- `getFaceInfoReq`. -/
structure getFaceInfoReq where
  AppID : String
  FaceID : String
deriving Repr, DecidableEq

/-- `GetFaceInfoRsp`. -/
structure GetFaceInfoRsp where
  FaceInfo : Face
  ErrorCode : Int
  ErrorMsg : String
deriving Repr, DecidableEq, Inhabited

/-- `Youtu.GetFaceInfo`. -/
def Youtu.GetFaceInfo
    (marshal : getFaceInfoReq → Except String String)
    (get : String → String → Except String String)
    (unmarshal : String → GetFaceInfoRsp → GetFaceInfoRsp × Option String)
    (fmtRsp : GetFaceInfoRsp → String)
    (y : Youtu) (faceID : String) :
    (GetFaceInfoRsp × Option String) × Youtu :=
  (Youtu.interfaceRequest marshal get unmarshal fmtRsp y "getfaceinfo"
    ⟨y.appID, faceID⟩ default, y)

/-! ## JSON decoding model for `SetInfoRsp` (claim C10) -/

/-- A JSON value (numbers as integers suffice here: no number is ever
stored, because no field of `SetInfoRsp` is decodable). -/
inductive Json where
  | null
  | bool (b : Bool)
  | num (n : Int)
  | str (s : String)
  | arr (elems : List Json)
  | obj (fields : List (String × Json))

/-- Modelled from Go's documented `encoding/json.Unmarshal` semantics at
type `SetInfoRsp` (this library call is outside `src/`): `Unmarshal`
stores object members into exported struct fields only; `SetInfoRsp` has
no exported field, so every member of a JSON object is skipped, JSON
`null` is a no-op, and any other JSON kind targeting a struct is a type
error that leaves the destination untouched. -/
def unmarshalSetInfoRsp (j : Json) (r : SetInfoRsp) :
    SetInfoRsp × Option String :=
  match j with
  | .null => (r, none)
  | .obj _ => (r, none)
  | _ => (r, some
      "json: cannot unmarshal JSON value into Go value of type youtu.SetInfoRsp")

/-- `json.Unmarshal` on a raw body at type `SetInfoRsp`: parse the body
with the injected JSON grammar oracle `parse`, then decode per
`unmarshalSetInfoRsp`; an unparsable body is a syntax error that leaves
the destination untouched. -/
def setInfoBodyUnmarshal (parse : String → Option Json) :
    String → SetInfoRsp → SetInfoRsp × Option String :=
  fun body r =>
    match parse body with
    | some j => unmarshalSetInfoRsp j r
    | none => (r, some "invalid character in JSON body")

/-! ## Claims -/

/-- C1: the canonical signature string is exactly
`a=<appID>&k=<secretID>&e=<expiry>&t=<t>&r=<r>&u=<userID>&f=` with that
field order, `&`/`=` separators, and an always-empty trailing `f=`; in
particular for appID=1, secretID="k", expiry=100, t=1000, r=5,
userID="u" it equals `a=1&k=k&e=100&t=1000&r=5&u=u&f=`. -/
theorem orignalSign_format :
    (∀ (y : Youtu) (t r : Nat),
      y.orignalSign t r =
        "a=" ++ toString y.appSign.appID ++
        "&k=" ++ y.appSign.secretID ++
        "&e=" ++ toString y.appSign.expired ++
        "&t=" ++ toString t ++
        "&r=" ++ toString r ++
        "&u=" ++ y.appSign.userID ++ "&f=") ∧
    (Init ⟨1, "k", "secret", 100, "u"⟩ "host").orignalSign 1000 5 =
      "a=1&k=k&e=100&t=1000&r=5&u=u&f=" :=
  ⟨fun _ _ _ => rfl, by decide⟩

/-- C2: the authorization token is the standard Base64 encoding of the
raw HMAC-SHA1 digest of the canonical string keyed by the secret key,
with the canonical string bytes appended directly after the digest
bytes; with time and nonce fixed it is reproducible byte-for-byte (the
concrete token below was computed by an independent implementation). -/
theorem sign_token_format :
    (∀ (y : Youtu) (t r : Nat),
      y.sign t r =
        base64Encode
          (hmacSha1 (utf8Bytes y.appSign.secretKey)
              (utf8Bytes (y.orignalSign t r)) ++
            utf8Bytes (y.orignalSign t r))) ∧
    (Init ⟨1, "k", "key", 100, "u"⟩ "host").sign 1000 5 =
      "rmuf6IPo3yHDJmQL/+pvSCycZK5hPTEmaz1rJmU9MTAwJnQ9MTAwMCZyPTUmdT11JmY9" :=
  ⟨fun _ _ _ => rfl, by decide⟩

/-- C3: constructing a credential with a user id longer than 110 bytes
fails with `ErrUserIDTooLong`; one of exactly 110 bytes (or fewer)
succeeds, producing the credential with exactly the given fields.  The
bound is checked in `NewAppSign` alone, at construction time. -/
theorem newAppSign_userID_bound :
    ∀ (a : Nat) (sid sk : String) (e : Nat) (uid : String),
      ((utf8Bytes uid).length > UserIDMaxLen →
        NewAppSign a sid sk e uid = .error ErrUserIDTooLong) ∧
      ((utf8Bytes uid).length ≤ UserIDMaxLen →
        NewAppSign a sid sk e uid = .ok ⟨a, sid, sk, e, uid⟩) := by
  intro a sid sk e uid
  refine ⟨fun h => ?_, fun h => ?_⟩
  · unfold NewAppSign
    rw [if_pos h]
  · unfold NewAppSign
    rw [if_neg (by omega)]

/-- Witness for C3 at user ids of 111 and 110 bytes. -/
theorem newAppSign_userID_bound_witness :
    ((utf8Bytes (String.mk (List.replicate 111 'a'))).length > UserIDMaxLen ∧
      NewAppSign 7 "sid" "sk" 0 (String.mk (List.replicate 111 'a')) =
        .error ErrUserIDTooLong) ∧
    ((utf8Bytes (String.mk (List.replicate 110 'a'))).length ≤ UserIDMaxLen ∧
      NewAppSign 7 "sid" "sk" 0 (String.mk (List.replicate 110 'a')) =
        .ok ⟨7, "sid", "sk", 0, String.mk (List.replicate 110 'a')⟩) :=
  ⟨⟨by decide,
    (newAppSign_userID_bound 7 "sid" "sk" 0 _).1 (by decide)⟩,
   ⟨by decide,
    (newAppSign_userID_bound 7 "sid" "sk" 0 _).2 (by decide)⟩⟩

/-- C6: the dispatcher's target URL is exactly
`http://<host>/youtu/api/<operationName>`. -/
theorem interfaceURL_format :
    (∀ (y : Youtu) (ifname : String),
      y.interfaceURL ifname = "http://" ++ y.host ++ "/youtu/api/" ++ ifname) ∧
    (Init ⟨1, "k", "key", 100, "u"⟩ "api.youtu.qq.com").interfaceURL
        "detectface" =
      "http://api.youtu.qq.com/youtu/api/detectface" :=
  ⟨fun _ _ => rfl, by decide⟩

/-- C8: on a readable file, `EncodeImage` returns exactly the standard
Base64 encoding of the file's bytes and no error; on an unreadable file
it returns the read failure and the empty image string. -/
theorem encodeImage_spec :
    ∀ (readFile : String → Except String (List Nat)) (file : String)
      (buf : List Nat) (e : String),
      (readFile file = .ok buf →
        EncodeImage readFile file = (base64Encode buf, none)) ∧
      (readFile file = .error e →
        EncodeImage readFile file = ("", some e)) := by
  intro readFile file buf e
  refine ⟨fun h => ?_, fun h => ?_⟩ <;> simp [EncodeImage, h]

/-- Witness for C8: a readable five-byte file (`hello`) encodes to
`aGVsbG8=`; an unreadable file surfaces its error. -/
theorem encodeImage_spec_witness :
    (EncodeImage (fun _ => .ok [104, 101, 108, 108, 111]) "img.jpg" =
      ("aGVsbG8=", none)) ∧
    (EncodeImage (fun _ => .error "open img.jpg: no such file or directory")
        "img.jpg" = ("", some "open img.jpg: no such file or directory")) :=
  ⟨by
    have h := (encodeImage_spec (fun _ => .ok [104, 101, 108, 108, 111])
      "img.jpg" [104, 101, 108, 108, 111] "").1 rfl
    rw [h]
    decide,
   (encodeImage_spec (fun _ => .error "open img.jpg: no such file or directory")
      "img.jpg" [] "open img.jpg: no such file or directory").2 rfl⟩

/-- C4: when the response body decodes successfully, the dispatcher
returns the decoded value with a nil error — whatever the decoded
value's status-code field holds; no part of the decoded content is
inspected. -/
theorem interfaceRequest_decode_ok_nil_error {Req Rsp : Type}
    (marshal : Req → Except String String)
    (get : String → String → Except String String)
    (unmarshal : String → Rsp → Rsp × Option String)
    (fmtRsp : Rsp → String) (y : Youtu) (ifname : String) (req : Req)
    (rsp0 rsp1 : Rsp) (data body : String)
    (hm : marshal req = .ok data)
    (hg : get (y.interfaceURL ifname) data = .ok body)
    (hu : unmarshal body rsp0 = (rsp1, none)) :
    Youtu.interfaceRequest marshal get unmarshal fmtRsp y ifname req rsp0 =
      (rsp1, none) := by
  simp only [Youtu.interfaceRequest, hm, hg, hu]

/-- Witness for C4: a decoded `SetInfoRsp` whose status code is 42 is
returned with a nil error. -/
theorem interfaceRequest_decode_ok_nil_error_witness :
    Youtu.interfaceRequest (fun _ : Unit => .ok "req")
      (fun _ _ => .ok "body")
      (fun _ _ => ((⟨"s1", "p1", 42, "service failed"⟩ : SetInfoRsp), none))
      (fun _ => "") (Init ⟨1, "k", "key", 100, "u"⟩ "host") "setinfo" ()
      (default : SetInfoRsp) =
      ((⟨"s1", "p1", 42, "service failed"⟩ : SetInfoRsp), none) :=
  interfaceRequest_decode_ok_nil_error _ _ _ _ _ _ _ _ _ "req" "body"
    rfl rfl rfl

/-- C5 counterexample: the decoding error does not include the raw
response body.  With body `BODY-XYZ` and a failing decode, the error
message embeds the formatted response destination value and the parse
error, and the body is not an infix of it. -/
theorem interfaceRequest_decode_error_counterexample :
    (Youtu.interfaceRequest (fun _ : Unit => .ok "req")
        (fun _ _ => .ok "BODY-XYZ")
        (fun _ r => (r, some "unexpected end of JSON input"))
        (fun _ => "[rsp]") (Init ⟨1, "k", "key", 100, "u"⟩ "host") "setinfo"
        () (default : SetInfoRsp)).2 =
      some "json.Unmarshal() rsp: [rsp] failed: unexpected end of JSON input\n" ∧
    ¬ ("BODY-XYZ".data <:+:
        "json.Unmarshal() rsp: [rsp] failed: unexpected end of JSON input\n".data) :=
  ⟨rfl, by decide⟩

/-- C5 (amended): on a decode failure the dispatcher fails with exactly
`json.Unmarshal() rsp: <formatted destination value> failed: <parse
error>\n` — a message embedding the formatted response destination value
and the underlying parse error (the parse error is an infix of it); the
raw response body is not part of the message. -/
theorem interfaceRequest_decode_error_message {Req Rsp : Type}
    (marshal : Req → Except String String)
    (get : String → String → Except String String)
    (unmarshal : String → Rsp → Rsp × Option String)
    (fmtRsp : Rsp → String) (y : Youtu) (ifname : String) (req : Req)
    (rsp0 rsp1 : Rsp) (data body e : String)
    (hm : marshal req = .ok data)
    (hg : get (y.interfaceURL ifname) data = .ok body)
    (hu : unmarshal body rsp0 = (rsp1, some e)) :
    Youtu.interfaceRequest marshal get unmarshal fmtRsp y ifname req rsp0 =
      (rsp1, some ("json.Unmarshal() rsp: " ++ fmtRsp rsp1 ++
        " failed: " ++ e ++ "\n")) ∧
    e.data <:+:
      ("json.Unmarshal() rsp: " ++ fmtRsp rsp1 ++
        " failed: " ++ e ++ "\n").data := by
  refine ⟨by simp only [Youtu.interfaceRequest, hm, hg, hu], ?_⟩
  refine ⟨("json.Unmarshal() rsp: " ++ fmtRsp rsp1 ++ " failed: ").data,
    "\n".data, ?_⟩
  simp [String.data_append]

/-- Witness for C5's amended theorem at a concrete failing decode. -/
theorem interfaceRequest_decode_error_message_witness :
    (Youtu.interfaceRequest (fun _ : Unit => .ok "req")
        (fun _ _ => .ok "BODY-XYZ")
        (fun _ r => (r, some "unexpected end of JSON input"))
        (fun _ => "[rsp]") (Init ⟨1, "k", "key", 100, "u"⟩ "host") "setinfo"
        () (default : SetInfoRsp) =
      ((default : SetInfoRsp),
        some "json.Unmarshal() rsp: [rsp] failed: unexpected end of JSON input\n")) ∧
    "unexpected end of JSON input".data <:+:
      "json.Unmarshal() rsp: [rsp] failed: unexpected end of JSON input\n".data := by
  have h := interfaceRequest_decode_error_message (fun _ : Unit => .ok "req")
    (fun _ _ => .ok "BODY-XYZ")
    (fun _ r => (r, some "unexpected end of JSON input"))
    (fun _ => "[rsp]") (Init ⟨1, "k", "key", 100, "u"⟩ "host") "setinfo"
    () (default : SetInfoRsp) (default : SetInfoRsp)
    "req" "BODY-XYZ" "unexpected end of JSON input" rfl rfl rfl
  exact ⟨h.1.trans (by decide), by decide⟩

/-- C7: every typed operation fills its request shape from the caller's
arguments plus the credential's application identifier rendered as its
decimal string, calls the dispatcher with that operation's fixed name,
and returns the dispatcher's result — response and error — unchanged
(no retry, no transformation, no combined calls).  The source defines
fourteen such operations; the property holds for each of them. -/
theorem operations_thin_wrappers :
    (∀ y : Youtu, y.appID = toString y.appSign.appID) ∧
    (∀ m g u f (y : Youtu) img mode,
      Youtu.DetectFace m g u f y img mode =
        (Youtu.interfaceRequest m g u f y "detectface"
          ⟨toString y.appSign.appID, img, mode⟩ default, y)) ∧
    (∀ m g u f (y : Youtu) imageA imageB,
      Youtu.FaceCompare m g u f y imageA imageB =
        (Youtu.interfaceRequest m g u f y "facecompare"
          ⟨y.appID, imageA, imageB⟩ default, y)) ∧
    (∀ m g u f (y : Youtu) image personID,
      Youtu.FaceVerify m g u f y image personID =
        (Youtu.interfaceRequest m g u f y "faceverify"
          ⟨y.appID, image, personID⟩ default, y)) ∧
    (∀ m g u f (y : Youtu) image groupID,
      Youtu.FaceIdentify m g u f y image groupID =
        (Youtu.interfaceRequest m g u f y "faceidentify"
          ⟨y.appID, groupID, image⟩ default, y)) ∧
    (∀ m g u f (y : Youtu) image personID groupIDs personName tag,
      Youtu.NewPerson m g u f y image personID groupIDs personName tag =
        (Youtu.interfaceRequest m g u f y "newperson"
          ⟨y.appID, image, personID, groupIDs, personName, tag⟩ default, y)) ∧
    (∀ m g u f (y : Youtu) personID,
      Youtu.DelPerson m g u f y personID =
        (Youtu.interfaceRequest m g u f y "delperson"
          ⟨y.appID, personID⟩ default, y)) ∧
    (∀ m g u f (y : Youtu) images personID tag,
      Youtu.AddFace m g u f y images personID tag =
        (Youtu.interfaceRequest m g u f y "addface"
          ⟨y.appID, personID, images, tag⟩ default, y)) ∧
    (∀ m g u f (y : Youtu) personID faceIDs,
      Youtu.DelFace m g u f y personID faceIDs =
        (Youtu.interfaceRequest m g u f y "delface"
          ⟨y.appID, personID, faceIDs⟩ default, y)) ∧
    (∀ m g u f (y : Youtu) personID personName tag,
      Youtu.SetInfo m g u f y personID personName tag =
        (Youtu.interfaceRequest m g u f y "setinfo"
          ⟨y.appID, personID, personName, tag⟩ default, y)) ∧
    (∀ m g u f (y : Youtu) personID,
      Youtu.GetInfo m g u f y personID =
        (Youtu.interfaceRequest m g u f y "getinfo"
          ⟨y.appID, personID⟩ default, y)) ∧
    (∀ m g u f (y : Youtu),
      Youtu.GetGroupIDs m g u f y =
        (Youtu.interfaceRequest m g u f y "getgroupids"
          ⟨y.appID⟩ default, y)) ∧
    (∀ m g u f (y : Youtu) groupID,
      Youtu.GetPersonIDs m g u f y groupID =
        (Youtu.interfaceRequest m g u f y "getpersonids"
          ⟨y.appID, groupID⟩ default, y)) ∧
    (∀ m g u f (y : Youtu) personID,
      Youtu.GetFaceIDs m g u f y personID =
        (Youtu.interfaceRequest m g u f y "getfaceids"
          ⟨y.appID, personID⟩ default, y)) ∧
    (∀ m g u f (y : Youtu) faceID,
      Youtu.GetFaceInfo m g u f y faceID =
        (Youtu.interfaceRequest m g u f y "getfaceinfo"
          ⟨y.appID, faceID⟩ default, y)) :=
  ⟨fun _ => rfl, fun _ _ _ _ _ _ _ => rfl, fun _ _ _ _ _ _ _ => rfl,
   fun _ _ _ _ _ _ _ => rfl, fun _ _ _ _ _ _ _ => rfl,
   fun _ _ _ _ _ _ _ _ _ _ => rfl, fun _ _ _ _ _ _ => rfl,
   fun _ _ _ _ _ _ _ _ => rfl, fun _ _ _ _ _ _ _ => rfl,
   fun _ _ _ _ _ _ _ _ => rfl, fun _ _ _ _ _ _ => rfl,
   fun _ _ _ _ _ => rfl, fun _ _ _ _ _ _ => rfl, fun _ _ _ _ _ _ => rfl,
   fun _ _ _ _ _ _ => rfl⟩

/-- C9: no operation mutates the client: threading the pointer-receiver
state explicitly, every typed operation returns the `Youtu` value — its
credential fields and its host — exactly as it received it. -/
theorem operations_preserve_client :
    (∀ m g u f (y : Youtu) img mode,
      (Youtu.DetectFace m g u f y img mode).2 = y) ∧
    (∀ m g u f (y : Youtu) imageA imageB,
      (Youtu.FaceCompare m g u f y imageA imageB).2 = y) ∧
    (∀ m g u f (y : Youtu) image personID,
      (Youtu.FaceVerify m g u f y image personID).2 = y) ∧
    (∀ m g u f (y : Youtu) image groupID,
      (Youtu.FaceIdentify m g u f y image groupID).2 = y) ∧
    (∀ m g u f (y : Youtu) image personID groupIDs personName tag,
      (Youtu.NewPerson m g u f y image personID groupIDs personName tag).2
        = y) ∧
    (∀ m g u f (y : Youtu) personID,
      (Youtu.DelPerson m g u f y personID).2 = y) ∧
    (∀ m g u f (y : Youtu) images personID tag,
      (Youtu.AddFace m g u f y images personID tag).2 = y) ∧
    (∀ m g u f (y : Youtu) personID faceIDs,
      (Youtu.DelFace m g u f y personID faceIDs).2 = y) ∧
    (∀ m g u f (y : Youtu) personID personName tag,
      (Youtu.SetInfo m g u f y personID personName tag).2 = y) ∧
    (∀ m g u f (y : Youtu) personID,
      (Youtu.GetInfo m g u f y personID).2 = y) ∧
    (∀ m g u f (y : Youtu),
      (Youtu.GetGroupIDs m g u f y).2 = y) ∧
    (∀ m g u f (y : Youtu) groupID,
      (Youtu.GetPersonIDs m g u f y groupID).2 = y) ∧
    (∀ m g u f (y : Youtu) personID,
      (Youtu.GetFaceIDs m g u f y personID).2 = y) ∧
    (∀ m g u f (y : Youtu) faceID,
      (Youtu.GetFaceInfo m g u f y faceID).2 = y) :=
  ⟨fun _ _ _ _ _ _ _ => rfl, fun _ _ _ _ _ _ _ => rfl,
   fun _ _ _ _ _ _ _ => rfl, fun _ _ _ _ _ _ _ => rfl,
   fun _ _ _ _ _ _ _ _ _ _ => rfl, fun _ _ _ _ _ _ => rfl,
   fun _ _ _ _ _ _ _ _ => rfl, fun _ _ _ _ _ _ _ => rfl,
   fun _ _ _ _ _ _ _ _ => rfl, fun _ _ _ _ _ _ => rfl,
   fun _ _ _ _ _ => rfl, fun _ _ _ _ _ _ => rfl, fun _ _ _ _ _ _ => rfl,
   fun _ _ _ _ _ _ => rfl⟩

/-- The `SetInfoRsp` decoder never changes the destination value. -/
theorem unmarshalSetInfoRsp_fst (j : Json) (r : SetInfoRsp) :
    (unmarshalSetInfoRsp j r).1 = r := by
  cases j <;> rfl

/-- `json.Unmarshal` at type `SetInfoRsp` never changes the destination
value, whatever the body. -/
theorem setInfoBodyUnmarshal_fst (parse : String → Option Json)
    (body : String) (r : SetInfoRsp) :
    (setInfoBodyUnmarshal parse body r).1 = r := by
  unfold setInfoBodyUnmarshal
  cases parse body with
  | none => rfl
  | some j => exact unmarshalSetInfoRsp_fst j r

/-- The dispatcher's response component equals the initial destination
whenever the decoder preserves its destination. -/
theorem interfaceRequest_fst_of_preserving {Req Rsp : Type}
    (marshal : Req → Except String String)
    (get : String → String → Except String String)
    (unmarshal : String → Rsp → Rsp × Option String)
    (fmtRsp : Rsp → String) (y : Youtu) (ifname : String) (req : Req)
    (rsp0 : Rsp)
    (hpres : ∀ body r, (unmarshal body r).1 = r) :
    (Youtu.interfaceRequest marshal get unmarshal fmtRsp y ifname req
      rsp0).1 = rsp0 := by
  rcases hm : marshal req with e | data
  · simp [Youtu.interfaceRequest, hm]
  · rcases hg : get (y.interfaceURL ifname) data with e | body
    · simp [Youtu.interfaceRequest, hm, hg]
    · rcases hu : unmarshal body rsp0 with ⟨rsp1, e?⟩
      have h := hpres body rsp0
      rw [hu] at h
      cases e? <;> simp [Youtu.interfaceRequest, hm, hg, hu, h]

/-- C10: every field of `SetInfoRsp` is unexported, so JSON decoding can
never populate any of them: whenever the response body is valid JSON,
`SetInfo` returns the zero value of `SetInfoRsp`, whatever the body's
contents. -/
theorem setInfo_zero_rsp :
    (∀ (j : Json) (r : SetInfoRsp), (unmarshalSetInfoRsp j r).1 = r) ∧
    (∀ (marshal : setInfoReq → Except String String)
       (get : String → String → Except String String)
       (parse : String → Option Json) (fmtRsp : SetInfoRsp → String)
       (y : Youtu) (personID personName tag body : String) (j : Json),
      get (y.interfaceURL "setinfo")
          ((marshal ⟨y.appID, personID, personName, tag⟩).toOption.getD "")
          = .ok body →
      parse body = some j →
      ((Youtu.SetInfo marshal get (setInfoBodyUnmarshal parse) fmtRsp y
          personID personName tag).1).1 =
        (⟨"", "", 0, ""⟩ : SetInfoRsp)) := by
  refine ⟨unmarshalSetInfoRsp_fst, ?_⟩
  intro marshal get parse fmtRsp y personID personName tag body j _ _
  exact interfaceRequest_fst_of_preserving marshal get
    (setInfoBodyUnmarshal parse) fmtRsp y "setinfo"
    ⟨y.appID, personID, personName, tag⟩ ⟨"", "", 0, ""⟩
    (setInfoBodyUnmarshal_fst parse)

/-- Witness for C10: a body decoding to a JSON object that sets all four
field names still leaves the returned `SetInfoRsp` at its zero value. -/
theorem setInfo_zero_rsp_witness :
    ((unmarshalSetInfoRsp
        (.obj [("session_id", .str "s1"), ("person_id", .str "p1"),
               ("errorcode", .num 9), ("errormsg", .str "bad")])
        ⟨"a", "b", 1, "c"⟩).1 = (⟨"a", "b", 1, "c"⟩ : SetInfoRsp)) ∧
    ((Youtu.SetInfo (fun _ => .ok "data") (fun _ _ => .ok "body")
        (setInfoBodyUnmarshal (fun _ => some
          (.obj [("session_id", .str "s1"), ("person_id", .str "p1"),
                 ("errorcode", .num 9), ("errormsg", .str "bad")])))
        (fun _ => "") (Init ⟨1, "k", "key", 100, "u"⟩ "host")
        "p1" "Alice" "tag").1).1 = (⟨"", "", 0, ""⟩ : SetInfoRsp) :=
  ⟨setInfo_zero_rsp.1 _ _,
   setInfo_zero_rsp.2 (fun _ => .ok "data") (fun _ _ => .ok "body")
     (fun _ => some (.obj [("session_id", .str "s1"), ("person_id", .str "p1"),
                           ("errorcode", .num 9), ("errormsg", .str "bad")]))
     (fun _ => "") (Init ⟨1, "k", "key", 100, "u"⟩ "host")
     "p1" "Alice" "tag" "body" _ rfl rfl⟩
